import Mathlib

/-!
# Verification of `src/scripts/transcribe.cpp`

A shallow embedding of the transcription driver in `src/scripts/transcribe.cpp`
together with proofs about the specified behaviour.

Modelling conventions:
* 16-bit PCM samples are embedded as `Int`; the float32 conversions divide
  16-bit integers (or their two-element sums) by the powers of two 32768 and
  65536, which is exact in binary32 (the magnitudes are below 2^24 and the
  divisor only shifts the exponent), so the buffers are embedded as `ℚ`.
* Segment start times are int64 centiseconds; the word anchor `start / 100`
  is embedded as `ℚ`.  At the concrete inputs the claims use (multiples of
  25 centiseconds) the double value is exact as well.
* Out-of-bounds `std::vector` accesses and other C++ undefined behaviour are
  embedded as `Option.none`: a function returns `none` exactly when the C++
  program has no defined result.
* The bytes a `std::ofstream` receives are modelled as a list of stream items
  (`OutItem`): raw character data, or a `double` inserted with `operator<<`
  (its textual rendering is the stream's concern and is kept symbolic).
-/

set_option autoImplicit false

namespace Transcribe

/-! ## Segments and words (`output_transcription`, lines 162–207) -/

/-- A recognizer segment: `whisper_full_get_segment_t0` (centiseconds, int64)
and `whisper_full_get_segment_text` (a C string, embedded as `List Char`). -/
structure Segment where
  t0 : Int
  text : List Char
deriving DecidableEq

/-- An assembled word: the `std::pair<std::string, double>` stored in `words`.
`text` is the pair's `.first`, `time` the pair's `.second`. -/
structure Word where
  text : List Char
  time : ℚ
deriving DecidableEq

/-- `const double time = start / 100;` (line 180). -/
def segTime (s : Segment) : ℚ := (s.t0 : ℚ) / 100

/-- `words[last].first = words[last].first + text;` (line 190): append `t` to
the text of the last element.  Only called on a nonempty list. -/
def appendLast : List Word → List Char → List Word
  | [], _ => []
  | [w], t => [⟨w.text ++ t, w.time⟩]
  | w :: ws, t => w :: appendLast ws t

/-- One iteration of the loop at lines 174–192.  `text[0] == ' '` starts a new
word from the text after the leading space (`text = text + sizeof(char)`);
otherwise the raw text is appended to `words[words.size() - 1]`, which is an
out-of-bounds access — undefined behaviour, embedded as `none` — when `words`
is empty. -/
def assembleStep (words : List Word) (seg : Segment) : Option (List Word) :=
  match seg.text with
  | ' ' :: rest => some (words ++ [⟨rest, segTime seg⟩])
  | _ =>
    match words with
    | [] => none
    | _ :: _ => some (appendLast words seg.text)

/-- The iterations of the loop at lines 174–192 over the remaining segments;
a faulting iteration makes the whole loop undefined. -/
def assembleLoop (words : List Word) : List Segment → Option (List Word)
  | [] => some words
  | seg :: rest =>
    match assembleStep words seg with
    | none => none
    | some ws => assembleLoop ws rest

/-- The reconstruction loop `for (int i = 1; i < n_segments; ++i)`
(lines 170–192): index 0 is skipped, the remaining segments are folded through
`assembleStep` starting from the empty `words` vector. -/
def assembleWords (segs : List Segment) : Option (List Word) :=
  assembleLoop [] (segs.drop 1)

/-! ## The JSON writer (lines 194–204) -/

/-- One item inserted into the output stream: literal character data, or a
`double` inserted with `operator<<` (kept symbolic). -/
inductive OutItem where
  | str (s : List Char)
  | num (q : ℚ)
deriving DecidableEq

/-- `std::vector::operator[]` on the `words` vector with a (signed) index:
out of bounds is undefined behaviour, embedded as `none`. -/
def vecGet (ws : List Word) (i : Int) : Option Word :=
  if i < 0 then none else ws.get? i.toNat

/-- The stream inserts of lines 197–199 for one word:
`fout << "{\"labelText\": " << "\"" << word.first << "\", " << "\"time\": "
<< word.second << "}"`. -/
def emitWordJson (w : Word) : List OutItem :=
  [.str "\x7b\"labelText\": ".data, .str "\"".data, .str w.text,
   .str "\", ".data, .str "\"time\": ".data, .num w.time, .str "\x7d".data]

/-- The output loop at lines 195–203.  After emitting each word the code
evaluates `word != words[n_segments - 1]` — indexing the *word* vector with
the *segment* count — and emits `", "` when the comparison holds.  An
iteration whose index is out of bounds makes the whole write undefined. -/
def writeLoop (nseg : Int) (all : List Word) : List Word → Option (List OutItem)
  | [] => some []
  | w :: rest =>
    match vecGet all (nseg - 1) with
    | none => none
    | some cmp =>
      match writeLoop nseg all rest with
      | none => none
      | some tail =>
        some (emitWordJson w ++ (if w ≠ cmp then [OutItem.str ", ".data] else []) ++ tail)

/-- `output_transcription` (lines 162–207) after the stream is opened:
assemble the words, then write `[`, the word objects with separators, `]`.
`n_segments = whisper_full_n_segments(ctx)` is the length of the full
segment list, including the skipped sentinel. -/
def output_transcription (segs : List Segment) : Option (List OutItem) :=
  match assembleWords segs with
  | none => none
  | some words =>
    match writeLoop (segs.length : Int) words words with
    | none => none
    | some body => some ([OutItem.str "[".data] ++ body ++ [OutItem.str "]".data])

/-! ## Audio loading (`main`, lines 294–343) -/

/-- The audio-format validation failures of lines 294–312, in source order. -/
inductive LoadError where
  | unsupportedChannelLayout
  | diarizationRequiresStereo
  | unsupportedSampleRate
  | unsupportedBitDepth
deriving DecidableEq

/-- The buffers produced by the conversion block: `pcmf32` (mono float32) and
`pcmf32s` (per-channel float32, filled only when diarization is requested). -/
structure AudioResult where
  pcmf32 : List ℚ
  pcmf32s : List (List ℚ)
deriving DecidableEq

/-- Line 314: `n = wav_data.empty() ? wav.totalPCMFrameCount
: wav_data.size()/(wav.channels*wav.bitsPerSample/8)`.  `wav_data` is the
stdin buffer (empty in the named-file case); only its length matters here. -/
def frameCount (wavDataLen channels bitsPerSample totalPCMFrameCount : Nat) : Nat :=
  if wavDataLen = 0 then totalPCMFrameCount
  else wavDataLen / (channels * bitsPerSample / 8)

/-- The mono conversion body (lines 323–331): `pcm16[i]/32768.0f` for one
channel, `(pcm16[2*i] + pcm16[2*i + 1])/65536.0f` for two.  `pcm16` indexing
out of bounds is undefined behaviour, embedded as `none`.  The divisions are
by powers of two, hence exact in binary32, so `ℚ` represents the float values
exactly. -/
def monoSample (channels : Nat) (pcm16 : List Int) (i : Nat) : Option ℚ :=
  if channels = 1 then
    (pcm16.get? i).map (fun (x : Int) => (x : ℚ) / 32768)
  else
    match pcm16.get? (2 * i), pcm16.get? (2 * i + 1) with
    | some a, some b => some (((a : ℚ) + (b : ℚ)) / 65536)
    | _, _ => none

/-- The diarization conversion body (lines 339–342):
`pcmf32s[c][i] = pcm16[2*i + c]/32768.0f` for channel `c ∈ {0, 1}`. -/
def diarSample (c : Nat) (pcm16 : List Int) (i : Nat) : Option ℚ :=
  (pcm16.get? (2 * i + c)).map (fun (x : Int) => (x : ℚ) / 32768)

/-- A `for (i = 0; i < n; i++)` fill loop: each iteration may fault, and a
faulting iteration makes the whole loop undefined. -/
def optMap {α β : Type} (f : α → Option β) : List α → Option (List β)
  | [] => some []
  | a :: l =>
    match f a, optMap f l with
    | some b, some bs => some (b :: bs)
    | _, _ => none

/-- The resized-and-filled `pcmf32` buffer (lines 322–331). -/
def monoBuffer (channels : Nat) (pcm16 : List Int) (n : Nat) : Option (List ℚ) :=
  optMap (monoSample channels pcm16) (List.range n)

/-- The resized-and-filled `pcmf32s[c]` buffer (lines 337–342). -/
def diarBuffer (c : Nat) (pcm16 : List Int) (n : Nat) : Option (List ℚ) :=
  optMap (diarSample c pcm16) (List.range n)

/-- The WAV validation and conversion block of lines 294–343, after the
container is opened and the `n` frames are decoded into `pcm16` (a vector of
length `n * channels`, which the theorems hypothesise where it matters).
Checks appear in source order: channel count ∈ {1, 2} (exit 6), diarization
with non-stereo input and timestamps enabled (exit 6), sample rate 16000
(`WHISPER_SAMPLE_RATE`, exit 8), bit depth 16 (exit 9).  The outer `none`
marks undefined behaviour in a fill loop (e.g. the diarization loop reading
`pcm16[2*i]` from a mono-sized buffer). -/
def loadAudio (diarize no_timestamps : Bool) (channels sampleRate bitsPerSample : Nat)
    (pcm16 : List Int) (n : Nat) : Option (Except LoadError AudioResult) :=
  if channels ≠ 1 ∧ channels ≠ 2 then some (.error .unsupportedChannelLayout)
  else if diarize = true ∧ channels ≠ 2 ∧ no_timestamps = false then
    some (.error .diarizationRequiresStereo)
  else if sampleRate ≠ 16000 then some (.error .unsupportedSampleRate)
  else if bitsPerSample ≠ 16 then some (.error .unsupportedBitDepth)
  else
    match monoBuffer channels pcm16 n with
    | none => none
    | some mono =>
      if diarize then
        match diarBuffer 0 pcm16 n, diarBuffer 1 pcm16 n with
        | some s0, some s1 => some (.ok ⟨mono, [s0, s1]⟩)
        | _, _ => none
      else some (.ok ⟨mono, []⟩)

/-! ## Path validation and the output path (`main`, lines 253–259, 390–394)

Paths are embedded as their lists of components in the generic format of
`std::filesystem::path`; the claims only involve relative multi-component
paths, where `parent_path` drops the last component. -/

/-- `std::filesystem::path::parent_path()` on a relative path: drop the final
component. -/
def parent_path (p : List String) : List String := p.dropLast

/-- `std::filesystem::path::filename()`: the final component (empty for the
empty path). -/
def pathFilename (p : List String) : String := (p.getLast?).getD ""

/-- Index of the last `'.'` in a component, if any. -/
def lastDotIdx (s : List Char) : Option Nat :=
  match s.reverse.findIdx? (fun c => c == '.') with
  | none => none
  | some j => some (s.length - 1 - j)

/-- `std::filesystem::path::stem()` of a single component: the component with
its extension removed.  The extension is empty — so the stem is the whole
component — when the component is `.` or `..`, contains no period, or its
only period is the leading character (a hidden file). -/
def stemOf (s : String) : String :=
  if s = "." ∨ s = ".." then s
  else
    match lastDotIdx s.data with
    | none => s
    | some 0 => s
    | some i => ⟨s.data.take i⟩

/-- `p.stem()`: the stem of the final component. -/
def pathStem (p : List String) : String := stemOf (pathFilename p)

/-- The gate at lines 256–259: `grandparent.stem() != "data"` throws
`std::invalid_argument` (the `LayoutViolation` of the spec); `layoutOk` is
the negation of that condition. -/
def layoutOk (fpath : List String) : Bool :=
  pathStem (parent_path (parent_path fpath)) == "data"

/-- Lines 391–393: `grandparent / "transcriptions" /
(fpath.stem().string() + "-transcription.json")`. -/
def outPath (fpath : List String) : List String :=
  parent_path (parent_path fpath) ++
    ["transcriptions", pathStem fpath ++ "-transcription.json"]

/-- A per-file failure: the layout gate or an audio-format violation. -/
inductive Failure where
  | layoutViolation
  | load (e : LoadError)
deriving DecidableEq

/-- One per-file iteration of the loop at lines 253–343 with the output-path
derivation of lines 390–393 (inference, which sits between the two in the
source, is external): the layout gate runs first and aborts before any audio
decoding; on success the derived output path accompanies the decoded audio. -/
def processFile (fpath : List String) (diarize no_timestamps : Bool)
    (channels sampleRate bitsPerSample : Nat) (pcm16 : List Int) (n : Nat) :
    Option (Except Failure (List String × AudioResult)) :=
  if layoutOk fpath = false then some (.error .layoutViolation)
  else
    match loadAudio diarize no_timestamps channels sampleRate bitsPerSample pcm16 n with
    | none => none
    | some (.error e) => some (.error (.load e))
    | some (.ok res) => some (.ok (outPath fpath, res))

/-! ## Transcription request configuration (`main`, lines 357–363) -/

/-- Line 361:
`wparams.token_timestamps = params.output_wts || params.max_len > 0;`. -/
def token_timestamps (output_wts : Bool) (max_len : Int) : Bool :=
  output_wts || decide (0 < max_len)

/-- Line 363: `wparams.max_len =
params.output_wts && params.max_len == 0 ? 60 : params.max_len;`. -/
def request_max_len (output_wts : Bool) (max_len : Int) : Int :=
  if output_wts = true ∧ max_len = 0 then 60 else max_len

/-- Line 357: `wparams.n_max_text_ctx =
params.max_context >= 0 ? params.max_context : wparams.n_max_text_ctx;`
where the right-hand `wparams.n_max_text_ctx` is the engine's default from
`whisper_full_default_params`. -/
def n_max_text_ctx (max_context engine_default : Int) : Int :=
  if 0 ≤ max_context then max_context else engine_default

/-! ## Process exit statuses -/

/-- The failure classes of the run, one per exit site of `main` and the
argument parser. -/
inductive FailureClass where
  | malformedArguments
  | missingInputs
  | unknownLanguage
  | engineInitFailure
  | wavOpenFailureStdin
  | wavOpenFailureFile
  | audioFormat (e : LoadError)
  | inferenceFailure
deriving DecidableEq

/-- The successful run's status: `return 0` at line 400. -/
def successExitCode : Nat := 0

/-- The `return` statuses of the audio-format checks (lines 294–312): note
that the channel-layout and diarization checks both return 6. -/
def loadErrorCode : LoadError → Nat
  | .unsupportedChannelLayout => 6
  | .diarizationRequiresStereo => 6
  | .unsupportedSampleRate => 8
  | .unsupportedBitDepth => 9

/-- The process exit status of each failure class, read off the exit sites:
unknown argument `exit(0)` (line 127), no inputs `return 2` (line 219),
unknown language `exit(0)` (line 225), engine init `return 3` (line 234),
stdin WAV open `return 4` (line 284), file WAV open `return 5` (line 291),
the audio-format statuses above, inference `return 10` (line 385). -/
def exitCode : FailureClass → Nat
  | .malformedArguments => 0
  | .missingInputs => 2
  | .unknownLanguage => 0
  | .engineInitFailure => 3
  | .wavOpenFailureStdin => 4
  | .wavOpenFailureFile => 5
  | .audioFormat e => loadErrorCode e
  | .inferenceFailure => 10

/-! ## Command-line parsing (`whisper_params_parse`, lines 92–132)

`float` parsing (`std::stof` for `--word-thold`) is kept abstract: the parser
takes a `stofFn` argument and the theorems hold for every such function.
`word_thold` itself is embedded as `ℚ`; its default `0.01f` is written as
`1/100` (its exact binary32 value never matters to any verified claim). -/

/-- The `whisper_params` struct (lines 59–88). -/
structure whisper_params where
  n_threads : Int
  n_processors : Int
  offset_t_ms : Int
  offset_n : Int
  duration_ms : Int
  max_context : Int
  max_len : Int
  word_thold : ℚ
  speed_up : Bool
  translate : Bool
  diarize : Bool
  output_txt : Bool
  output_vtt : Bool
  output_srt : Bool
  output_wts : Bool
  output_csv : Bool
  print_special : Bool
  print_colors : Bool
  print_progress : Bool
  no_timestamps : Bool
  language : String
  prompt : String
  model : String
  fname_inp : List String
deriving DecidableEq

/-- The initializers of lines 60–87;
`n_threads = std::min(4, hardware_concurrency)`. -/
def default_params (hardware_concurrency : Int) : whisper_params where
  n_threads := min 4 hardware_concurrency
  n_processors := 1
  offset_t_ms := 0
  offset_n := 0
  duration_ms := 0
  max_context := -1
  max_len := 0
  word_thold := 1/100
  speed_up := false
  translate := false
  diarize := false
  output_txt := false
  output_vtt := false
  output_srt := false
  output_wts := false
  output_csv := false
  print_special := false
  print_colors := false
  print_progress := false
  no_timestamps := false
  language := "en"
  prompt := ""
  model := "models/ggml-base.en.bin"
  fname_inp := []

/-- `std::stoi` (base 10): skip leading whitespace, an optional sign, then at
least one decimal digit; `none` when no digits follow (`std::invalid_argument`
is thrown) or the value leaves the `int` range (`std::out_of_range`). -/
def stoi (s : String) : Option Int :=
  let cs := s.data.dropWhile (fun c =>
    c == ' ' || c == '\t' || c == '\n' || c == '\x0b' || c == '\x0c' || c == '\r')
  let signed : Int × List Char :=
    match cs with
    | '-' :: t => (-1, t)
    | '+' :: t => (1, t)
    | t => (1, t)
  let ds := signed.2.takeWhile Char.isDigit
  if ds = [] then none
  else
    let v : Int := signed.1 * (ds.foldl (fun n c => 10 * n + (c.toNat - 48)) 0 : Nat)
    if v < -2147483648 ∨ 2147483647 < v then none else some v

/-- How a run of `whisper_params_parse` ends: normally with the updated
params, with `exit(0)` from the help or unknown-argument branches, with an
uncaught `std::stoi`/`std::stof` exception, or — when a value-taking flag is
the last argument — with `argv[++i]` reading the null `argv[argc]`
(undefined behaviour). -/
inductive ParseOutcome where
  | ok (p : whisper_params)
  | helpExit
  | unknownArgExit (arg : String)
  | stoiThrow
  | nullArg
deriving DecidableEq

/-- `whisper_params_parse` (lines 92–132).  An argument whose first character
is not `'-'` (for the empty argument, `arg[0]` is the terminating null) is a
positional input file; everything else goes through the flag chain, whose
final `else` prints usage and calls `exit(0)`. -/
def parseArgs (stofFn : String → Option ℚ) :
    List String → whisper_params → ParseOutcome
  | [], p => .ok p
  | arg :: rest, p =>
    if arg.data.head? ≠ some '-' then
      parseArgs stofFn rest { p with fname_inp := p.fname_inp ++ [arg] }
    else if arg = "-h" ∨ arg = "--help" then .helpExit
    else if arg = "-t" ∨ arg = "--threads" then
      match rest with
      | [] => .nullArg
      | v :: rest2 =>
        match stoi v with
        | none => .stoiThrow
        | some k => parseArgs stofFn rest2 { p with n_threads := k }
    else if arg = "-p" ∨ arg = "--processors" then
      match rest with
      | [] => .nullArg
      | v :: rest2 =>
        match stoi v with
        | none => .stoiThrow
        | some k => parseArgs stofFn rest2 { p with n_processors := k }
    else if arg = "-ot" ∨ arg = "--offset-t" then
      match rest with
      | [] => .nullArg
      | v :: rest2 =>
        match stoi v with
        | none => .stoiThrow
        | some k => parseArgs stofFn rest2 { p with offset_t_ms := k }
    else if arg = "-on" ∨ arg = "--offset-n" then
      match rest with
      | [] => .nullArg
      | v :: rest2 =>
        match stoi v with
        | none => .stoiThrow
        | some k => parseArgs stofFn rest2 { p with offset_n := k }
    else if arg = "-d" ∨ arg = "--duration" then
      match rest with
      | [] => .nullArg
      | v :: rest2 =>
        match stoi v with
        | none => .stoiThrow
        | some k => parseArgs stofFn rest2 { p with duration_ms := k }
    else if arg = "-mc" ∨ arg = "--max-context" then
      match rest with
      | [] => .nullArg
      | v :: rest2 =>
        match stoi v with
        | none => .stoiThrow
        | some k => parseArgs stofFn rest2 { p with max_context := k }
    else if arg = "-ml" ∨ arg = "--max-len" then
      match rest with
      | [] => .nullArg
      | v :: rest2 =>
        match stoi v with
        | none => .stoiThrow
        | some k => parseArgs stofFn rest2 { p with max_len := k }
    else if arg = "-wt" ∨ arg = "--word-thold" then
      match rest with
      | [] => .nullArg
      | v :: rest2 =>
        match stofFn v with
        | none => .stoiThrow
        | some k => parseArgs stofFn rest2 { p with word_thold := k }
    else if arg = "-su" ∨ arg = "--speed-up" then
      parseArgs stofFn rest { p with speed_up := true }
    else if arg = "-tr" ∨ arg = "--translate" then
      parseArgs stofFn rest { p with translate := true }
    else if arg = "-di" ∨ arg = "--diarize" then
      parseArgs stofFn rest { p with diarize := true }
    else if arg = "-ps" ∨ arg = "--print-special" then
      parseArgs stofFn rest { p with print_special := true }
    else if arg = "-pc" ∨ arg = "--print-colors" then
      parseArgs stofFn rest { p with print_colors := true }
    else if arg = "-pp" ∨ arg = "--print-progress" then
      parseArgs stofFn rest { p with print_progress := true }
    else if arg = "-nt" ∨ arg = "--no-timestamps" then
      parseArgs stofFn rest { p with no_timestamps := true }
    else if arg = "-l" ∨ arg = "--language" then
      match rest with
      | [] => .nullArg
      | v :: rest2 => parseArgs stofFn rest2 { p with language := v }
    else if arg = "--prompt" then
      match rest with
      | [] => .nullArg
      | v :: rest2 => parseArgs stofFn rest2 { p with prompt := v }
    else if arg = "-m" ∨ arg = "--model" then
      match rest with
      | [] => .nullArg
      | v :: rest2 => parseArgs stofFn rest2 { p with model := v }
    else if arg = "-f" ∨ arg = "--file" then
      match rest with
      | [] => .nullArg
      | v :: rest2 => parseArgs stofFn rest2 { p with fname_inp := p.fname_inp ++ [v] }
    else .unknownArgExit arg

/-! ## WAV input source selection (`main`, lines 266–292) -/

/-- Where the WAV container bytes come from: the in-memory buffer filled from
standard input, or a named file. -/
inductive WavSource where
  | stdin (data : List UInt8)
  | file (name : String)
deriving DecidableEq

/-- The `fread` loop of lines 271–280: read standard input in 1024-byte
chunks, appending each chunk to `wav_data`, until a zero-length read. -/
def freadLoop (stdin_data acc : List UInt8) : List UInt8 :=
  if h : stdin_data = [] then acc
  else freadLoop (stdin_data.drop 1024) (acc ++ stdin_data.take 1024)
  termination_by stdin_data.length
  decreasing_by
    simp only [List.length_drop]
    exact Nat.sub_lt (List.length_pos.mpr h) (by norm_num)

/-- Lines 269–292: `if (fname_inp == "-")` the container is parsed from the
buffer filled by the `fread` loop (`drwav_init_memory`); otherwise from the
named file (`drwav_init_file`). -/
def wavSource (fname : String) (stdin_data : List UInt8) : WavSource :=
  if fname = "-" then .stdin (freadLoop stdin_data []) else .file fname

end Transcribe

open Transcribe

/-- C1: on the segment sequence `[sentinel, " Hello", " world", "!"]` with
start times `[0, 100, 250, 250]` centiseconds, the assembler skips index 0,
starts a new word for each segment with a leading space (stripping exactly one
space, anchored at `t0 / 100` seconds), appends the raw text of the space-less
segment to the most recent word without moving its anchor, and produces
exactly `[{text := "Hello", time := 1}, {text := "world!", time := 5/2}]`. -/
theorem C1_hello_world_assembly :
    assembleWords
      [⟨0, []⟩, ⟨100, " Hello".data⟩, ⟨250, " world".data⟩, ⟨250, "!".data⟩] =
      some [⟨"Hello".data, 1⟩, ⟨"world!".data, 5/2⟩] := by
  simp [assembleWords, assembleLoop, assembleStep, segTime, appendLast]
  norm_num

/-- C2: on a stream whose first non-sentinel segment has no leading space the
loop executes `words[words.size() - 1]` with `words` empty — an out-of-bounds
vector access, undefined behaviour (embedded as `none`) — instead of failing
with a `MalformedSegmentStream` error: no such error value exists anywhere in
the program. -/
theorem C2_missing_space_faults :
    assembleWords [⟨0, []⟩, ⟨100, "Hello".data⟩] = none := by
  simp [assembleWords, assembleLoop, assembleStep]

/-- C3: the writer's separator test `word != words[n_segments - 1]` indexes
the word vector with the segment count.  On the C1 example (4 segments, 2
assembled words) the very first iteration reads `words[3]`, out of bounds, so
the write is undefined (embedded as `none`) rather than a well-formed JSON
array. -/
theorem C3_writer_reads_out_of_bounds :
    output_transcription
      [⟨0, []⟩, ⟨100, " Hello".data⟩, ⟨250, " world".data⟩, ⟨250, "!".data⟩] =
      none := by
  simp [output_transcription, assembleWords, assembleLoop, assembleStep,
    segTime, appendLast, writeLoop, vecGet]

/-! ## Helper lemmas -/

/-- A successful fill loop produces a buffer of the loop-bound length. -/
theorem optMap_length {α β : Type} (f : α → Option β) :
    ∀ (l : List α) (xs : List β), optMap f l = some xs → xs.length = l.length := by
  intro l
  induction l with
  | nil =>
    intro xs h
    simp only [optMap, Option.some.injEq] at h
    simp [← h]
  | cons a t ih =>
    intro xs h
    unfold optMap at h
    split at h
    · next b bs hb hbs =>
      cases h
      simp [ih bs hbs]
    · exact absurd h (by simp)

/-- A successful fill loop writes `f a` at the index holding `a`. -/
theorem optMap_get {α β : Type} (f : α → Option β) :
    ∀ (l : List α) (xs : List β), optMap f l = some xs →
      ∀ (i : Nat) (a : α), l.get? i = some a → xs.get? i = f a := by
  intro l
  induction l with
  | nil =>
    intro xs _ i a ha
    simp at ha
  | cons x t ih =>
    intro xs h i a ha
    unfold optMap at h
    split at h
    · next b bs hb hbs =>
      cases h
      match i with
      | 0 =>
        simp only [List.get?] at ha
        cases ha
        simpa using hb.symm
      | i + 1 =>
        simp only [List.get?] at ha ⊢
        exact ih bs hbs i a ha
    · exact absurd h (by simp)

/-- The `fread` accumulation loop concatenates the whole stream. -/
theorem freadLoop_eq (s acc : List UInt8) : freadLoop s acc = acc ++ s := by
  by_cases h : s = []
  · rw [freadLoop]
    simp [h]
  · rw [freadLoop, dif_neg h]
    rw [freadLoop_eq (s.drop 1024) (acc ++ s.take 1024)]
    rw [List.append_assoc, List.take_append_drop]
  termination_by s.length
  decreasing_by
    simp only [List.length_drop]
    exact Nat.sub_lt (List.length_pos.mpr h) (by norm_num)

/-- C4 counterexample, two defects.  First, the gate compares the
grandparent's *stem* — its final component minus any extension — with
`"data"`, so for `data.bak/foo/bar.wav` processing proceeds even though the
grandparent's final component is `"data.bak"`, not `"data"`, contradicting
the claimed if-and-only-if.  Second, the grandparent of `data/foo/bar.wav`
is `data` (not `data/foo`), so the derived output path is
`data/transcriptions/bar-transcription.json`, not the claimed
`data/foo/transcriptions/bar-transcription.json`. -/
theorem C4_stem_is_not_filename :
    layoutOk ["data.bak", "foo", "bar.wav"] = true ∧
    pathFilename (parent_path (parent_path ["data.bak", "foo", "bar.wav"])) ≠ "data" ∧
    outPath ["data", "foo", "bar.wav"] =
      ["data", "transcriptions", "bar-transcription.json"] ∧
    outPath ["data", "foo", "bar.wav"] ≠
      ["data", "foo", "transcriptions", "bar-transcription.json"] := by
  decide

/-- C4 (amended): processing proceeds iff the *stem* of the grandparent's
final component equals `data`; a failed gate aborts the per-file pipeline
before any audio decoding, regardless of the audio contents; a successful
run derives the output path `<grandparent>/transcriptions/
<input-stem>-transcription.json`; `data/foo/bar.wav` passes with output
`data/transcriptions/bar-transcription.json` (the grandparent is `data`),
`other/foo/bar.wav` fails, and `data.bak/foo/bar.wav` also passes. -/
theorem C4_layout_gate :
    (∀ (fpath : List String) (diarize nt : Bool) (ch sr bits : Nat)
        (pcm16 : List Int) (n : Nat), layoutOk fpath = false →
        processFile fpath diarize nt ch sr bits pcm16 n =
          some (.error .layoutViolation)) ∧
    (∀ (fpath : List String) (diarize nt : Bool) (ch sr bits : Nat)
        (pcm16 : List Int) (n : Nat) (res : List String × AudioResult),
        processFile fpath diarize nt ch sr bits pcm16 n = some (.ok res) →
        layoutOk fpath = true ∧ res.1 = outPath fpath) ∧
    (∀ fpath : List String,
        layoutOk fpath = true ↔
          stemOf (pathFilename (parent_path (parent_path fpath))) = "data") ∧
    layoutOk ["data", "foo", "bar.wav"] = true ∧
    outPath ["data", "foo", "bar.wav"] =
      ["data", "transcriptions", "bar-transcription.json"] ∧
    layoutOk ["other", "foo", "bar.wav"] = false ∧
    layoutOk ["data.bak", "foo", "bar.wav"] = true := by
  refine ⟨?_, ?_, ?_, by decide, by decide, by decide, by decide⟩
  · intro fpath d nt ch sr bits pcm16 n h
    simp [processFile, h]
  · intro fpath d nt ch sr bits pcm16 n res h
    unfold processFile at h
    by_cases hl : layoutOk fpath = false
    · rw [if_pos hl] at h
      simp at h
    · rw [if_neg hl] at h
      refine ⟨by simpa using hl, ?_⟩
      cases hla : loadAudio d nt ch sr bits pcm16 n with
      | none => rw [hla] at h; simp at h
      | some ex =>
        rw [hla] at h
        cases ex with
        | error e => simp at h
        | ok r =>
          simp only [Option.some.injEq, Except.ok.injEq] at h
          rw [← h]
  · intro fpath
    simp [layoutOk, pathStem]

/-- C4 witness: the misplaced file `other/foo/bar.wav` is rejected by the
layout gate before decoding. -/
theorem C4_layout_gate_witness :
    processFile ["other", "foo", "bar.wav"] false false 1 16000 16 [] 0 =
      some (.error .layoutViolation) :=
  C4_layout_gate.1 ["other", "foo", "bar.wav"] false false 1 16000 16 [] 0 (by decide)

/-- C6 counterexample: the unsupported-channel-layout and
diarization-requires-stereo failures share exit status 6, and both the
malformed-argument and unknown-language failures exit with status 0 — the
success status — refuting distinctness. -/
theorem C6_shared_and_zero_statuses :
    exitCode (.audioFormat .unsupportedChannelLayout) =
      exitCode (.audioFormat .diarizationRequiresStereo) ∧
    exitCode .malformedArguments = successExitCode ∧
    exitCode .unknownLanguage = successExitCode := by
  decide

/-- C6 (amended): the exit statuses are small integers per failure class —
missing inputs 2, engine init 3, stdin WAV open 4, file WAV open 5, channel
layout 6, sample rate 8, bit depth 9, inference 10, and these are pairwise
distinct and non-zero — but the diarization-requires-stereo failure shares
status 6 with the channel-layout failure, and the malformed-argument and
unknown-language failures exit with the success status 0. -/
theorem C6_exit_status_mapping :
    exitCode .missingInputs = 2 ∧
    exitCode .engineInitFailure = 3 ∧
    exitCode .wavOpenFailureStdin = 4 ∧
    exitCode .wavOpenFailureFile = 5 ∧
    exitCode (.audioFormat .unsupportedChannelLayout) = 6 ∧
    exitCode (.audioFormat .diarizationRequiresStereo) = 6 ∧
    exitCode (.audioFormat .unsupportedSampleRate) = 8 ∧
    exitCode (.audioFormat .unsupportedBitDepth) = 9 ∧
    exitCode .inferenceFailure = 10 ∧
    exitCode .malformedArguments = successExitCode ∧
    exitCode .unknownLanguage = successExitCode ∧
    List.Pairwise (fun a b => exitCode a ≠ exitCode b)
      [FailureClass.missingInputs, .engineInitFailure, .wavOpenFailureStdin,
       .wavOpenFailureFile, .audioFormat .unsupportedChannelLayout,
       .audioFormat .unsupportedSampleRate, .audioFormat .unsupportedBitDepth,
       .inferenceFailure] ∧
    (∀ c ∈ [FailureClass.missingInputs, .engineInitFailure, .wavOpenFailureStdin,
       .wavOpenFailureFile, .audioFormat .unsupportedChannelLayout,
       .audioFormat .diarizationRequiresStereo, .audioFormat .unsupportedSampleRate,
       .audioFormat .unsupportedBitDepth, .inferenceFailure],
       exitCode c ≠ successExitCode) := by
  decide

/-- C7: in the request built at lines 357–363, token-level timestamps are
enabled iff word-level timestamp output (`output_wts`) is requested or the
configured max segment length is positive; a requested word-level output with
unset (zero) max length defaults the request's max length to 60, otherwise
the configured value is passed through; and the max text-context tokens are
the configured value when non-negative, else the engine default. -/
theorem C7_request_configuration :
    ∀ (output_wts : Bool) (max_len max_context engine_default : Int),
    (token_timestamps output_wts max_len = true ↔
      output_wts = true ∨ 0 < max_len) ∧
    (output_wts = true → max_len = 0 →
      request_max_len output_wts max_len = 60) ∧
    (output_wts = false ∨ max_len ≠ 0 →
      request_max_len output_wts max_len = max_len) ∧
    (0 ≤ max_context →
      n_max_text_ctx max_context engine_default = max_context) ∧
    (max_context < 0 →
      n_max_text_ctx max_context engine_default = engine_default) := by
  intro wts ml mc d
  refine ⟨?_, ?_, ?_, ?_, ?_⟩
  · simp [token_timestamps]
  · intro h1 h2
    simp [request_max_len, h1, h2]
  · intro h
    unfold request_max_len
    rw [if_neg]
    rintro ⟨h1, h2⟩
    rcases h with h | h
    · rw [h1] at h; cases h
    · exact h h2
  · intro h
    simp [n_max_text_ctx, h]
  · intro h
    rw [n_max_text_ctx, if_neg (by omega)]

/-- C7 witness: word-level output with unset max length yields the 60-char
default, and a negative configured max context falls back to the engine
default. -/
theorem C7_request_configuration_witness :
    request_max_len true 0 = 60 ∧ n_max_text_ctx (-1) 16384 = 16384 :=
  ⟨(C7_request_configuration true 0 0 0).2.1 rfl rfl,
   (C7_request_configuration true 0 (-1) 16384).2.2.2.2 (by norm_num)⟩

/-- C5: for one channel, a successfully filled mono buffer holds
`pcm16[i]/32768` at index `i`, which lies in `[-1, 1]` for 16-bit PCM values;
for two channels the mono buffer holds `(pcm16[2i] + pcm16[2i+1])/65536` and
the diarized per-channel buffers hold `pcm16[2i]/32768` and
`pcm16[2i+1]/32768`; and there is a concrete input on which the mono sample
differs from both per-channel samples. -/
theorem C5_pcm_conversion :
    (∀ (pcm16 : List Int) (n : Nat) (buf : List ℚ),
      monoBuffer 1 pcm16 n = some buf →
      ∀ (i : Nat) (x : Int), i < n → pcm16.get? i = some x →
        buf.get? i = some ((x : ℚ) / 32768) ∧
        (-32768 ≤ x → x ≤ 32767 →
          -1 ≤ (x : ℚ) / 32768 ∧ (x : ℚ) / 32768 ≤ 1)) ∧
    (∀ (pcm16 : List Int) (n : Nat) (buf s0 s1 : List ℚ),
      monoBuffer 2 pcm16 n = some buf →
      diarBuffer 0 pcm16 n = some s0 →
      diarBuffer 1 pcm16 n = some s1 →
      ∀ (i : Nat) (a b : Int), i < n →
        pcm16.get? (2 * i) = some a → pcm16.get? (2 * i + 1) = some b →
        buf.get? i = some (((a : ℚ) + (b : ℚ)) / 65536) ∧
        s0.get? i = some ((a : ℚ) / 32768) ∧
        s1.get? i = some ((b : ℚ) / 32768)) ∧
    (∃ (pcm16 : List Int) (n : Nat) (buf s0 s1 : List ℚ),
      monoBuffer 2 pcm16 n = some buf ∧
      diarBuffer 0 pcm16 n = some s0 ∧
      diarBuffer 1 pcm16 n = some s1 ∧
      buf.get? 0 ≠ s0.get? 0 ∧ buf.get? 0 ≠ s1.get? 0) := by
  refine ⟨?_, ?_, ?_⟩
  · intro pcm16 n buf hbuf i x hi hx
    have hget := optMap_get _ _ _ hbuf i i (List.get?_range hi)
    refine ⟨?_, ?_⟩
    · rw [hget]
      unfold monoSample
      rw [if_pos rfl, hx]
      rfl
    · intro hlo hhi
      have h32 : (0 : ℚ) < 32768 := by norm_num
      have hlo' : (-32768 : ℚ) ≤ (x : ℚ) := by exact_mod_cast hlo
      have hhi' : (x : ℚ) ≤ 32767 := by exact_mod_cast hhi
      constructor
      · rw [le_div_iff h32]
        linarith
      · rw [div_le_one h32]
        linarith
  · intro pcm16 n buf s0 s1 hbuf hs0 hs1 i a b hi ha hb
    have hm := optMap_get _ _ _ hbuf i i (List.get?_range hi)
    have h0 := optMap_get _ _ _ hs0 i i (List.get?_range hi)
    have h1 := optMap_get _ _ _ hs1 i i (List.get?_range hi)
    refine ⟨?_, ?_, ?_⟩
    · rw [hm]
      unfold monoSample
      rw [if_neg (by norm_num), ha, hb]
    · rw [h0]
      unfold diarSample
      rw [Nat.add_zero, ha]
      rfl
    · rw [h1]
      unfold diarSample
      rw [hb]
      rfl
  · refine ⟨[32767, 0], 1, [(32767 : ℚ) / 65536], [(32767 : ℚ) / 32768], [0],
      ?_, ?_, ?_, ?_, ?_⟩
    · norm_num [monoBuffer, optMap, monoSample, List.range_succ, List.range_zero]
    · norm_num [diarBuffer, optMap, diarSample, List.range_succ, List.range_zero]
    · norm_num [diarBuffer, optMap, diarSample, List.range_succ, List.range_zero]
    · norm_num [List.get?]
    · norm_num [List.get?]

/-- C5 witness: the mono sample of a one-channel input with PCM value 16384
is 16384/32768. -/
theorem C5_pcm_conversion_witness :
    [((16384 : Int) : ℚ) / 32768].get? 0 = some (((16384 : Int) : ℚ) / 32768) :=
  (C5_pcm_conversion.1 [16384] 1 [((16384 : Int) : ℚ) / 32768]
    (by norm_num [monoBuffer, optMap, monoSample, List.range_succ, List.range_zero])
    0 16384 (by norm_num) rfl).1

/-- C9: the stereo mono-downmix sample is exactly the arithmetic mean of the
two diarized per-channel samples — `(a + b)/65536 = (a/32768 + b/32768)/2`
over `ℚ`, and every quotient involved is a division of 16-bit integers (or
their sum) by a power of two, hence exact in float32 as well. -/
theorem C9_downmix_is_channel_mean :
    ∀ (pcm16 : List Int) (i : Nat) (m l r : ℚ),
      monoSample 2 pcm16 i = some m →
      diarSample 0 pcm16 i = some l →
      diarSample 1 pcm16 i = some r →
      m = (l + r) / 2 := by
  intro pcm16 i m l r hm hl hr
  unfold monoSample at hm
  rw [if_neg (by norm_num)] at hm
  cases ha : pcm16.get? (2 * i) with
  | none =>
    cases hb : pcm16.get? (2 * i + 1) with
    | none => rw [ha, hb] at hm; simp at hm
    | some b => rw [ha, hb] at hm; simp at hm
  | some a =>
    cases hb : pcm16.get? (2 * i + 1) with
    | none => rw [ha, hb] at hm; simp at hm
    | some b =>
      rw [ha, hb] at hm
      simp only [Option.some.injEq] at hm
      unfold diarSample at hl hr
      rw [Nat.add_zero, ha] at hl
      rw [hb] at hr
      simp only [Option.map_some', Option.some.injEq] at hl hr
      subst hm hl hr
      ring

/-- C9 witness: at the concrete stereo frame `(3, 5)` the downmix `8/65536`
is the mean of `3/32768` and `5/32768`. -/
theorem C9_downmix_is_channel_mean_witness :
    (((3 : Int) : ℚ) + ((5 : Int) : ℚ)) / 65536 =
      (((3 : Int) : ℚ) / 32768 + ((5 : Int) : ℚ) / 32768) / 2 :=
  C9_downmix_is_channel_mean [3, 5] 0
    ((((3 : Int) : ℚ) + ((5 : Int) : ℚ)) / 65536)
    (((3 : Int) : ℚ) / 32768) (((5 : Int) : ℚ) / 32768)
    (by simp [monoSample]) (by simp [diarSample]) (by simp [diarSample])

/-- C10: whenever audio loading succeeds for frame count `n`, the mono
buffer has length exactly `n`; with diarization requested the per-channel
list holds exactly two buffers, each of length `n`; without diarization no
per-channel buffers exist. -/
theorem C10_buffer_lengths :
    ∀ (diarize nt : Bool) (ch sr bits : Nat) (pcm16 : List Int) (n : Nat)
      (res : AudioResult),
      loadAudio diarize nt ch sr bits pcm16 n = some (.ok res) →
      res.pcmf32.length = n ∧
      (diarize = true →
        ∃ s0 s1, res.pcmf32s = [s0, s1] ∧ s0.length = n ∧ s1.length = n) ∧
      (diarize = false → res.pcmf32s = []) := by
  intro d nt ch sr bits pcm16 n res h
  unfold loadAudio at h
  split_ifs at h with hb1 hb2 hb3 hb4 hd <;> try simp at h
  · split at h
    · simp at h
    · next mono hmb =>
      have hlen : mono.length = n := by
        have := optMap_length _ _ _ hmb
        simpa [List.length_range] using this
      split at h
      · next s0 s1 h5 h6 =>
        simp only [Option.some.injEq, Except.ok.injEq] at h
        subst h
        have hl0 : s0.length = n := by
          have := optMap_length _ _ _ h5
          simpa [List.length_range] using this
        have hl1 : s1.length = n := by
          have := optMap_length _ _ _ h6
          simpa [List.length_range] using this
        refine ⟨hlen, fun _ => ⟨s0, s1, rfl, hl0, hl1⟩, fun hf => ?_⟩
        rw [hd] at hf
        exact absurd hf (by decide)
      · simp at h
  · split at h
    · simp at h
    · next mono hmb =>
      have hlen : mono.length = n := by
        have := optMap_length _ _ _ hmb
        simpa [List.length_range] using this
      simp only [Option.some.injEq, Except.ok.injEq] at h
      subst h
      have hd' : d = false := by
        revert hd
        cases d <;> simp
      refine ⟨hlen, fun hf => ?_, fun _ => rfl⟩
      rw [hd'] at hf
      exact absurd hf (by decide)

/-- C10 witness: a diarized stereo load of two frames yields a mono buffer
of length two. -/
theorem C10_buffer_lengths_witness :
    loadAudio true false 2 16000 16 [1, 2, 3, 4] 2 =
      some (.ok ⟨[(((1 : Int) : ℚ) + ((2 : Int) : ℚ)) / 65536,
                  (((3 : Int) : ℚ) + ((4 : Int) : ℚ)) / 65536],
        [[((1 : Int) : ℚ) / 32768, ((3 : Int) : ℚ) / 32768],
         [((2 : Int) : ℚ) / 32768, ((4 : Int) : ℚ) / 32768]]⟩) ∧
    ([(((1 : Int) : ℚ) + ((2 : Int) : ℚ)) / 65536,
      (((3 : Int) : ℚ) + ((4 : Int) : ℚ)) / 65536] : List ℚ).length = 2 := by
  have hload : loadAudio true false 2 16000 16 [1, 2, 3, 4] 2 =
      some (.ok ⟨[(((1 : Int) : ℚ) + ((2 : Int) : ℚ)) / 65536,
                  (((3 : Int) : ℚ) + ((4 : Int) : ℚ)) / 65536],
        [[((1 : Int) : ℚ) / 32768, ((3 : Int) : ℚ) / 32768],
         [((2 : Int) : ℚ) / 32768, ((4 : Int) : ℚ) / 32768]]⟩) := by
    norm_num [loadAudio, monoBuffer, diarBuffer, optMap, monoSample,
      diarSample, List.range_succ, List.range_zero]
  exact ⟨hload,
    (C10_buffer_lengths true false 2 16000 16 [1, 2, 3, 4] 2 _ hload).1⟩

/-- C8 counterexample: a bare positional `-` begins with `'-'`, so
`whisper_params_parse` routes it through the flag chain, where it matches no
flag and hits the unknown-argument branch (usage is printed and the process
exits via `exit(0)`); it is *not* accepted as an input file. -/
theorem C8_positional_dash_rejected :
    parseArgs (fun _ => none) ["-"] (default_params 4) = .unknownArgExit "-" := by
  rfl

/-- C8 (amended): `-` is accepted as an input file only as the value of
`-f`/`--file`; a bare positional `-` hits the unknown-argument exit.  When an
input file name is `-`, the loader reads standard input to end-of-stream into
the in-memory buffer (1024-byte chunks, concatenated in order, so the buffer
is the whole stream); any other name opens the named file. -/
theorem C8_stdin_selection :
    (∀ (stofFn : String → Option ℚ) (p : whisper_params),
      parseArgs stofFn ["-f", "-"] p =
        .ok { p with fname_inp := p.fname_inp ++ ["-"] } ∧
      parseArgs stofFn ["--file", "-"] p =
        .ok { p with fname_inp := p.fname_inp ++ ["-"] } ∧
      parseArgs stofFn ["-"] p = .unknownArgExit "-") ∧
    (∀ stdin_data : List UInt8,
      wavSource "-" stdin_data = .stdin (freadLoop stdin_data []) ∧
      freadLoop stdin_data [] = stdin_data) ∧
    (∀ (name : String) (stdin_data : List UInt8),
      name ≠ "-" → wavSource name stdin_data = .file name) := by
  refine ⟨fun stofFn p => ⟨rfl, rfl, rfl⟩,
    fun stdin_data => ⟨rfl, by simpa using freadLoop_eq stdin_data []⟩, ?_⟩
  intro name stdin_data hname
  simp [wavSource, hname]

/-- C8 witness: a normal file name selects the named-file source, and
`-f -` parses to an input list ending in `-`. -/
theorem C8_stdin_selection_witness :
    wavSource "speech.wav" [] = .file "speech.wav" ∧
    parseArgs (fun _ => none) ["-f", "-"] (default_params 4) =
      .ok { default_params 4 with
              fname_inp := (default_params 4).fname_inp ++ ["-"] } :=
  ⟨C8_stdin_selection.2.2 "speech.wav" [] (by decide),
   (C8_stdin_selection.1 (fun _ => none) (default_params 4)).1⟩
